import Mathlib

/-!
Verification of the godot-mcp operation execution protocol and scene-mutation
engine, shallowly embedded from `scripts/godot_operations.gd` (the engine-side
dispatcher, run as a headless tool script) and the host-side executor
(`src/godot/executor.ts`).

Modelling conventions:
- GDScript `Variant` values are the inductive `Variant` below; JSON numbers are
  rationals (GDScript parses all JSON numbers to `float`; we use `ℚ` so that
  everything is decidable and executable).
- Godot `Dictionary` is an insertion-ordered association list with unique keys.
- The engine (file system, `ResourceSaver`, `ClassDB`, property reflection) is
  an explicit `Env` record threaded through every operation.
- A GDScript runtime error (e.g. calling `.is_empty()` on a float, or passing a
  non-number to a `Vector2` constructor) aborts the script before it can emit a
  result; this is modelled as the operation returning `none` for its result.
-/

set_option maxHeartbeats 1000000

namespace GodotMCP

/-- GDScript `Variant` restricted to the shapes this program manipulates:
the JSON-decodable values (null, bool, float, string, array, dictionary) plus
the native structured types produced by `_convert_property_value`. -/
inductive Variant where
  | vnull
  | vbool (b : Bool)
  | vnum (q : ℚ)
  | vstr (s : String)
  | vlist (xs : List Variant)
  | vdict (d : List (String × Variant))
  | vVector2 (x y : ℚ)
  | vVector3 (x y z : ℚ)
  | vColor (r g b a : ℚ)
  | vRect2 (x y w h : ℚ)

/-- A Godot `Dictionary` with `Variant` values. -/
abbrev Dict := List (String × Variant)

/-- Association-list lookup; models `Dictionary.has` / `Dictionary[key]`. -/
def aget {α : Type} : List (String × α) → String → Option α
  | [], _ => none
  | (k, v) :: rest, key => if k = key then some v else aget rest key

/-- Association-list insert-or-overwrite; models `Dictionary[key] = value`. -/
def aset {α : Type} : List (String × α) → String → α → List (String × α)
  | [], k, v => [(k, v)]
  | (k', v') :: rest, k, v =>
      if k' = k then (k, v) :: rest else (k', v') :: aset rest k v

/-- `Dictionary.get(key, default)`. -/
def dgetD (d : Dict) (k : String) (dflt : Variant) : Variant :=
  (aget d k).getD dflt

/-- Reading a `Variant` as a number, as the `Vector2`/`Color`/`Rect2`
constructors do; a non-numeric argument is a GDScript runtime error (`none`). -/
def asNum : Variant → Option ℚ
  | .vnum q => some q
  | _ => none

/-- `_convert_property_value` from godot_operations.gd: a dictionary carrying a
`_type` discriminator naming one of Vector2 / Vector3 / Color / Rect2 is turned
into the corresponding native value (missing vector/rect components default to
0, missing color channels default to 1); every other value is returned
unchanged.  `none` models the runtime error raised by the native constructor
when a present component is not a number. -/
def convertPropertyValue : Variant → Option Variant
  | .vdict d =>
    match aget d "_type" with
    | some (.vstr "Vector2") =>
        match asNum (dgetD d "x" (.vnum 0)), asNum (dgetD d "y" (.vnum 0)) with
        | some x, some y => some (.vVector2 x y)
        | _, _ => none
    | some (.vstr "Vector3") =>
        match asNum (dgetD d "x" (.vnum 0)), asNum (dgetD d "y" (.vnum 0)),
              asNum (dgetD d "z" (.vnum 0)) with
        | some x, some y, some z => some (.vVector3 x y z)
        | _, _, _ => none
    | some (.vstr "Color") =>
        match asNum (dgetD d "r" (.vnum 1)), asNum (dgetD d "g" (.vnum 1)),
              asNum (dgetD d "b" (.vnum 1)), asNum (dgetD d "a" (.vnum 1)) with
        | some r, some g, some b, some a => some (.vColor r g b a)
        | _, _, _, _ => none
    | some (.vstr "Rect2") =>
        match asNum (dgetD d "x" (.vnum 0)), asNum (dgetD d "y" (.vnum 0)),
              asNum (dgetD d "w" (.vnum 0)), asNum (dgetD d "h" (.vnum 0)) with
        | some x, some y, some w, some h => some (.vRect2 x y w h)
        | _, _, _, _ => none
    | some _ => some (.vdict d)
    | none => some (.vdict d)
  | v => some v

/-- True when the value is not a dictionary carrying a `_type` discriminator,
i.e. when `_convert_property_value` takes none of its conversion branches. -/
def notTagged : Variant → Bool
  | .vdict d => (aget d "_type").isNone
  | _ => true

/-- True when the discriminator value is one the converter recognizes. -/
def recognizedTag : Variant → Bool
  | .vstr "Vector2" => true
  | .vstr "Vector3" => true
  | .vstr "Color" => true
  | .vstr "Rect2" => true
  | _ => false

/-- An animation stored in an `AnimationPlayer`'s default-keyed
`AnimationLibrary`: its length, loop mode, and value tracks (track path
`"<target>:<property>"` paired with its keyframes in insertion order). -/
structure AnimRec where
  length : ℚ
  loopLinear : Bool
  tracks : List (String × List (ℚ × Variant))

/-- An in-memory scene-tree node: name, engine class name, optionally attached
script, explicitly set properties, the default-keyed animation library when one
has been added (`some` iff `has_animation_library("")`), and ordered children. -/
inductive SceneNode where
  | mk (name typeName : String) (script : Option String)
       (props : Dict) (anims : Option (List (String × AnimRec)))
       (children : List SceneNode)

def SceneNode.name : SceneNode → String
  | .mk n _ _ _ _ _ => n

def SceneNode.typeName : SceneNode → String
  | .mk _ t _ _ _ _ => t

def SceneNode.script : SceneNode → Option String
  | .mk _ _ s _ _ _ => s

def SceneNode.props : SceneNode → Dict
  | .mk _ _ _ p _ _ => p

def SceneNode.anims : SceneNode → Option (List (String × AnimRec))
  | .mk _ _ _ _ a _ => a

def SceneNode.children : SceneNode → List SceneNode
  | .mk _ _ _ _ _ c => c

def SceneNode.withName (nm : String) : SceneNode → SceneNode
  | .mk _ t s p a c => .mk nm t s p a c

def SceneNode.withScript (sc : Option String) : SceneNode → SceneNode
  | .mk n t _ p a c => .mk n t sc p a c

def SceneNode.withProps (pr : Dict) : SceneNode → SceneNode
  | .mk n t s _ a c => .mk n t s pr a c

def SceneNode.withAnims (an : Option (List (String × AnimRec))) : SceneNode → SceneNode
  | .mk n t s p _ c => .mk n t s p an c

def SceneNode.withChildren (ch : List SceneNode) : SceneNode → SceneNode
  | .mk n t s p a _ => .mk n t s p a ch

/-- Splits a `NodePath` string into name segments.  `"."` denotes the node
itself (no segments); the empty string is an invalid path. -/
def parsePath (p : String) : Option (List String) :=
  if p = "" then none
  else if p = "." then some []
  else some (p.splitOn "/")

/-- Resolves path segments against a node, as `get_node_or_null` does for a
relative path: each segment names a child (`"."` stays on the current node; an
empty segment, as produced by a leading or doubled slash, is invalid).  The
result is the position of the resolved node as a list of child indices — the
root is `[]` — which stands in for object identity in the tree. -/
def resolveLoc : SceneNode → List String → Option (List Nat)
  | _, [] => some []
  | n, seg :: rest =>
    if seg = "." then resolveLoc n rest
    else if seg = "" then none
    else
      match n.children.findIdx? (fun c => c.name = seg) with
      | some i =>
        match n.children.get? i with
        | some c => (resolveLoc c rest).map (i :: ·)
        | none => none
      | none => none

/-- The node at a child-index position. -/
def nodeAt : SceneNode → List Nat → Option SceneNode
  | n, [] => some n
  | n, i :: rest =>
    match n.children.get? i with
    | some c => nodeAt c rest
    | none => none

/-- Rewrites the node at a child-index position with `f`. -/
def updateAt (f : SceneNode → SceneNode) : SceneNode → List Nat → Option SceneNode
  | n, [] => some (f n)
  | n, i :: rest =>
    match n.children.get? i with
    | some c =>
      match updateAt f c rest with
      | some c' => some (n.withChildren (n.children.set i c'))
      | none => none
    | none => none

/-- Detaches the node at a (nonempty) child-index position from its parent, as
`remove_child` does. -/
def removeAt : SceneNode → List Nat → Option SceneNode
  | _, [] => none
  | n, [i] =>
    match n.children.get? i with
    | some _ => some (n.withChildren (n.children.eraseIdx i))
    | none => none
  | n, i :: j :: rest =>
    match n.children.get? i with
    | some c =>
      match removeAt c (j :: rest) with
      | some c' => some (n.withChildren (n.children.set i c'))
      | none => none
    | none => none

/-- A standalone resource being created by `create_resource`. -/
structure ResourceRec where
  typeName : String
  props : Dict

/-- One I/O action against the project on disk, recorded in the order the
operation performs it. -/
inductive IOEvent where
  | loadScene (path : String)
  | loadScript (path : String)
  | saveScene (path : String)
  | saveResource (path : String)
  | writeFile (path : String)
  | loadConfig
  | scanFiles

/-- The engine-and-filesystem environment an operation runs against.
`saveRes`/`writeOk`/`packOk` abstract the fallible engine calls; `classExists`
and `classIsResource` abstract `ClassDB`; `exposes t p` abstracts the
duck-typing reflection (`get(p) != null or p in get_property_list()` on a node
of class `t`, and the effect of `Object.set`, which silently ignores a property
the class does not expose). -/
structure Env where
  scenes : List (String × SceneNode)
  gdscripts : List String
  resources : List (String × ResourceRec)
  saveRes : String → Nat
  writeOk : String → Bool
  packOk : Bool
  classExists : String → Bool
  classIsResource : String → Bool
  exposes : String → String → Bool
  projectLoaded : Bool
  projectName : Variant
  mainScene : Variant
  versionInfo : Variant
  projectPathStr : String
  sceneFiles : List Variant
  scriptFiles : List Variant

/-- `load(path) as PackedScene` followed by `instantiate()`: succeeds exactly
when a scene file exists at the path. -/
def loadScene (env : Env) (path : String) : Option SceneNode :=
  aget env.scenes path

/-- The outcome of one dispatched operation: the result dictionary (`none`
models a GDScript runtime error aborting the script), the environment after the
operation, and the document I/O it performed. -/
structure OpOut where
  res : Option Dict
  env : Env
  io : List IOEvent

/-- A result dictionary of the shape `{"success": false, "error": msg}`. -/
def errDict (msg : String) : Dict :=
  [("success", .vbool false), ("error", .vstr msg)]

/-- Fetching a parameter that the operation immediately treats as a `String`
(e.g. calls `.is_empty()` on): a present non-string value is a runtime error. -/
def getStr (params : Dict) (k : String) (dflt : String) : Option String :=
  match aget params k with
  | none => some dflt
  | some (.vstr s) => some s
  | some _ => none

/-- Fetching a parameter the operation treats as a number. -/
def getNum (params : Dict) (k : String) (dflt : ℚ) : Option ℚ :=
  match aget params k with
  | none => some dflt
  | some (.vnum q) => some q
  | some _ => none

/-- Fetching a parameter the operation iterates as a `Dictionary`
(`params.get(k, \x7b\x7d)`); a present non-dictionary value is modelled as a
runtime error. -/
def getDict (params : Dict) (k : String) : Option Dict :=
  match aget params k with
  | none => some []
  | some (.vdict d) => some d
  | some _ => none

/-- Fetching a parameter the operation iterates as an `Array`. -/
def getList (params : Dict) (k : String) : Option (List Variant) :=
  match aget params k with
  | none => some []
  | some (.vlist xs) => some xs
  | some _ => none

/-- `Variant.booleanize`, as used by `if loop:`.  Only the `loop_mode` flag of
a created animation depends on this. -/
def variantTruthy : Variant → Bool
  | .vnull => false
  | .vbool b => b
  | .vnum q => decide (q ≠ 0)
  | .vstr s => decide (s ≠ "")
  | .vlist xs => !xs.isEmpty
  | .vdict d => !d.isEmpty
  | .vVector2 x y => decide (¬(x = 0 ∧ y = 0))
  | .vVector3 x y z => decide (¬(x = 0 ∧ y = 0 ∧ z = 0))
  | .vColor r g b a => decide (¬(r = 0 ∧ g = 0 ∧ b = 0 ∧ a = 0))
  | .vRect2 x y w h => decide (¬(x = 0 ∧ y = 0 ∧ w = 0 ∧ h = 0))

/-- A freshly constructed node of an engine class: empty name until assigned,
no script, no explicitly set properties, no animation library, no children. -/
def freshNode (t : String) : SceneNode :=
  .mk "" t none [] none []

/-- `_create_node_of_type`: the curated table of node classes, falling back to
`ClassDB.class_exists` + `ClassDB.instantiate`.  Every branch constructs a
fresh node of the named class. -/
def createNodeOfType (env : Env) (t : String) : Option SceneNode :=
  match t with
  | "Node" => some (freshNode "Node")
  | "Node2D" => some (freshNode "Node2D")
  | "Node3D" => some (freshNode "Node3D")
  | "Sprite2D" => some (freshNode "Sprite2D")
  | "Sprite3D" => some (freshNode "Sprite3D")
  | "Camera2D" => some (freshNode "Camera2D")
  | "Camera3D" => some (freshNode "Camera3D")
  | "CharacterBody2D" => some (freshNode "CharacterBody2D")
  | "CharacterBody3D" => some (freshNode "CharacterBody3D")
  | "RigidBody2D" => some (freshNode "RigidBody2D")
  | "RigidBody3D" => some (freshNode "RigidBody3D")
  | "StaticBody2D" => some (freshNode "StaticBody2D")
  | "StaticBody3D" => some (freshNode "StaticBody3D")
  | "Area2D" => some (freshNode "Area2D")
  | "Area3D" => some (freshNode "Area3D")
  | "CollisionShape2D" => some (freshNode "CollisionShape2D")
  | "CollisionShape3D" => some (freshNode "CollisionShape3D")
  | "MeshInstance3D" => some (freshNode "MeshInstance3D")
  | "DirectionalLight3D" => some (freshNode "DirectionalLight3D")
  | "PointLight2D" => some (freshNode "PointLight2D")
  | "OmniLight3D" => some (freshNode "OmniLight3D")
  | "SpotLight3D" => some (freshNode "SpotLight3D")
  | "AnimationPlayer" => some (freshNode "AnimationPlayer")
  | "AnimatedSprite2D" => some (freshNode "AnimatedSprite2D")
  | "AudioStreamPlayer" => some (freshNode "AudioStreamPlayer")
  | "AudioStreamPlayer2D" => some (freshNode "AudioStreamPlayer2D")
  | "AudioStreamPlayer3D" => some (freshNode "AudioStreamPlayer3D")
  | "Control" => some (freshNode "Control")
  | "Label" => some (freshNode "Label")
  | "Button" => some (freshNode "Button")
  | "TextureRect" => some (freshNode "TextureRect")
  | "Panel" => some (freshNode "Panel")
  | "CanvasLayer" => some (freshNode "CanvasLayer")
  | "ParallaxBackground" => some (freshNode "ParallaxBackground")
  | "ParallaxLayer" => some (freshNode "ParallaxLayer")
  | "TileMap" => some (freshNode "TileMap")
  | "Path2D" => some (freshNode "Path2D")
  | "Path3D" => some (freshNode "Path3D")
  | "PathFollow2D" => some (freshNode "PathFollow2D")
  | "PathFollow3D" => some (freshNode "PathFollow3D")
  | "Timer" => some (freshNode "Timer")
  | "GPUParticles2D" => some (freshNode "GPUParticles2D")
  | "GPUParticles3D" => some (freshNode "GPUParticles3D")
  | "CPUParticles2D" => some (freshNode "CPUParticles2D")
  | "CPUParticles3D" => some (freshNode "CPUParticles3D")
  | "WorldEnvironment" => some (freshNode "WorldEnvironment")
  | "NavigationRegion2D" => some (freshNode "NavigationRegion2D")
  | "NavigationRegion3D" => some (freshNode "NavigationRegion3D")
  | _ => if env.classExists t then some (freshNode t) else none

/-- `_create_resource_of_type`: the curated table of resource classes, falling
back to `ClassDB` with an `is Resource` category check on the fallback path. -/
def createResourceOfType (env : Env) (t : String) : Option ResourceRec :=
  match t with
  | "CircleShape2D" => some ⟨"CircleShape2D", []⟩
  | "RectangleShape2D" => some ⟨"RectangleShape2D", []⟩
  | "CapsuleShape2D" => some ⟨"CapsuleShape2D", []⟩
  | "BoxShape3D" => some ⟨"BoxShape3D", []⟩
  | "SphereShape3D" => some ⟨"SphereShape3D", []⟩
  | "CapsuleShape3D" => some ⟨"CapsuleShape3D", []⟩
  | "StandardMaterial3D" => some ⟨"StandardMaterial3D", []⟩
  | "ShaderMaterial" => some ⟨"ShaderMaterial", []⟩
  | "CanvasItemMaterial" => some ⟨"CanvasItemMaterial", []⟩
  | "BoxMesh" => some ⟨"BoxMesh", []⟩
  | "SphereMesh" => some ⟨"SphereMesh", []⟩
  | "CapsuleMesh" => some ⟨"CapsuleMesh", []⟩
  | "CylinderMesh" => some ⟨"CylinderMesh", []⟩
  | "PlaneMesh" => some ⟨"PlaneMesh", []⟩
  | "QuadMesh" => some ⟨"QuadMesh", []⟩
  | "Environment" => some ⟨"Environment", []⟩
  | "Curve" => some ⟨"Curve", []⟩
  | "Curve2D" => some ⟨"Curve2D", []⟩
  | "Curve3D" => some ⟨"Curve3D", []⟩
  | "Gradient" => some ⟨"Gradient", []⟩
  | "GradientTexture1D" => some ⟨"GradientTexture1D", []⟩
  | "GradientTexture2D" => some ⟨"GradientTexture2D", []⟩
  | "NoiseTexture2D" => some ⟨"NoiseTexture2D", []⟩
  | "Animation" => some ⟨"Animation", []⟩
  | "AnimationLibrary" => some ⟨"AnimationLibrary", []⟩
  | "SpriteFrames" => some ⟨"SpriteFrames", []⟩
  | "LabelSettings" => some ⟨"LabelSettings", []⟩
  | "StyleBoxFlat" => some ⟨"StyleBoxFlat", []⟩
  | "StyleBoxTexture" => some ⟨"StyleBoxTexture", []⟩
  | _ =>
    if env.classExists t && env.classIsResource t then some ⟨t, []⟩ else none

/-- The property loop of `_add_node`: each requested property is set on the
fresh node only when the target class exposes that property name (the
duck-typing check `new_node.get(p) != null or p in get_property_list()`);
accepted values are stored raw — `_add_node` never calls
`_convert_property_value`. -/
def addNodeProps (exposes : String → String → Bool) (t : String) (properties : Dict) : Dict :=
  properties.foldl (fun acc kv => if exposes t kv.1 then aset acc kv.1 kv.2 else acc) []

/-- The property loop of `_modify_node` after conversion: `Object.set` on an
existing node updates a property the class exposes and silently ignores one it
does not. -/
def setProps (exposes : String → String → Bool) (n : SceneNode) (kvs : Dict) : SceneNode :=
  kvs.foldl
    (fun m kv => if exposes m.typeName kv.1 then m.withProps (aset m.props kv.1 kv.2) else m) n

/-- Converts every value of a properties dictionary through
`_convert_property_value`, aborting (`none`) if any conversion is a runtime
error; `_modify_node` and `_create_resource` convert each value this way before
assigning it. -/
def convertProps : Dict → Option Dict
  | [] => some []
  | (k, v) :: rest =>
    match convertPropertyValue v with
    | none => none
    | some w => (convertProps rest).map ((k, w) :: ·)

/-- The path label of a child in a root-relative serialization. -/
def childPathStr (parent : String) (child : String) : String :=
  if parent = "." then child else parent ++ "/" ++ child

mutual
/-- `_serialize_node_tree`: name, class, path, the script resource path when
one is attached, and a `children` entry only when there are children.  Path
strings are rendered root-relative (the root as `"."`). -/
def serializeNodeTree : SceneNode → String → Variant
  | .mk nm ty sc _ _ ch, path =>
    .vdict ([("name", .vstr nm), ("type", .vstr ty), ("path", .vstr path)]
      ++ (match sc with
          | some s => [("script", .vstr s)]
          | none => [])
      ++ (match serializeChildren ch path with
          | [] => []
          | cs => [("children", .vlist cs)]))

def serializeChildren : List SceneNode → String → List Variant
  | [], _ => []
  | c :: cs, path =>
      serializeNodeTree c (childPathStr path c.name) :: serializeChildren cs path
end

mutual
/-- `_collect_node_paths`: pre-order traversal emitting
`(path, type, name)` per node, the root's path rendered as `"."`. -/
def collectNodePaths : SceneNode → String → List Variant
  | .mk nm ty _ _ _ ch, path =>
    .vdict [("path", .vstr path), ("type", .vstr ty), ("name", .vstr nm)]
      :: collectChildren ch path

def collectChildren : List SceneNode → String → List Variant
  | [], _ => []
  | c :: cs, path =>
      collectNodePaths c (childPathStr path c.name) ++ collectChildren cs path
end

/-- The environment after the scene file at `path` has been overwritten to
hold `root`. -/
def withScene (env : Env) (path : String) (root : SceneNode) : Env :=
  { env with scenes := aset env.scenes path root }

/-- `ResourceSaver.save(packed_scene, path)` together with its effect: on
success (error code 0) the scene file at `path` now holds `root`. -/
def saveSceneTo (env : Env) (path : String) (root : SceneNode) : Nat × Env :=
  let code := env.saveRes path
  if code = 0 then (0, withScene env path root) else (code, env)

/-- `_create_scene`. -/
def createScene (env : Env) (params : Dict) : OpOut :=
  match getStr params "scene_path" "", getStr params "root_type" "Node2D",
        getStr params "root_name" "Root" with
  | some scene_path, some root_type, some root_name =>
    if scene_path = "" then ⟨some (errDict "scene_path is required"), env, []⟩
    else
      match createNodeOfType env root_type with
      | none => ⟨some (errDict ("Unknown node type: " ++ root_type)), env, []⟩
      | some n0 =>
        let root := n0.withName root_name
        if !env.packOk then ⟨some (errDict "Failed to pack scene"), env, []⟩
        else
          let (code, env') := saveSceneTo env scene_path root
          if code = 0 then
            ⟨some [("success", .vbool true),
                   ("message", .vstr ("Created scene at " ++ scene_path)),
                   ("scene_path", .vstr scene_path),
                   ("root_type", .vstr root_type),
                   ("root_name", .vstr root_name)],
             env', [.saveScene scene_path]⟩
          else
            ⟨some (errDict ("Failed to save scene: " ++ toString code)), env',
             [.saveScene scene_path]⟩
  | _, _, _ => ⟨none, env, []⟩

/-- `_add_node`. -/
def addNode (env : Env) (params : Dict) : OpOut :=
  match getStr params "scene_path" "", getStr params "parent_path" ".",
        getStr params "node_type" "Node", getStr params "node_name" "NewNode",
        getDict params "properties" with
  | some scene_path, some parent_path, some node_type, some node_name, some properties =>
    if scene_path = "" then ⟨some (errDict "scene_path is required"), env, []⟩
    else
      match loadScene env scene_path with
      | none =>
        ⟨some (errDict ("Failed to load scene: " ++ scene_path)), env,
         [.loadScene scene_path]⟩
      | some root =>
        match (parsePath parent_path).bind (resolveLoc root) with
        | none =>
          ⟨some (errDict ("Parent node not found: " ++ parent_path)), env,
           [.loadScene scene_path]⟩
        | some loc =>
          match createNodeOfType env node_type with
          | none =>
            ⟨some (errDict ("Unknown node type: " ++ node_type)), env,
             [.loadScene scene_path]⟩
          | some n0 =>
            let newNode := (n0.withName node_name).withProps
              (addNodeProps env.exposes node_type properties)
            match updateAt (fun p => p.withChildren (p.children ++ [newNode])) root loc with
            | none => ⟨none, env, [.loadScene scene_path]⟩
            | some root' =>
              let (code, env') := saveSceneTo env scene_path root'
              if code = 0 then
                ⟨some [("success", .vbool true),
                       ("message", .vstr ("Added " ++ node_type ++ " node '" ++ node_name
                         ++ "' to " ++ parent_path)),
                       ("node_path", .vstr (if parent_path ≠ "."
                         then parent_path ++ "/" ++ node_name else node_name))],
                 env', [.loadScene scene_path, .saveScene scene_path]⟩
              else
                ⟨some (errDict "Failed to save scene"), env',
                 [.loadScene scene_path, .saveScene scene_path]⟩
  | _, _, _, _, _ => ⟨none, env, []⟩

/-- `_remove_node`.  The required-parameter check mirrors the short-circuiting
`scene_path.is_empty() or node_path.is_empty()`. -/
def removeNode (env : Env) (params : Dict) : OpOut :=
  match getStr params "scene_path" "" with
  | none => ⟨none, env, []⟩
  | some scene_path =>
    if scene_path = "" then
      ⟨some (errDict "scene_path and node_path are required"), env, []⟩
    else
      match getStr params "node_path" "" with
      | none => ⟨none, env, []⟩
      | some node_path =>
        if node_path = "" then
          ⟨some (errDict "scene_path and node_path are required"), env, []⟩
        else
          match loadScene env scene_path with
          | none =>
            ⟨some (errDict ("Failed to load scene: " ++ scene_path)), env,
             [.loadScene scene_path]⟩
          | some root =>
            match (parsePath node_path).bind (resolveLoc root) with
            | none =>
              ⟨some (errDict ("Node not found: " ++ node_path)), env,
               [.loadScene scene_path]⟩
            | some [] =>
              ⟨some (errDict "Cannot remove root node"), env,
               [.loadScene scene_path]⟩
            | some loc =>
              match removeAt root loc with
              | none => ⟨none, env, [.loadScene scene_path]⟩
              | some root' =>
                let (code, env') := saveSceneTo env scene_path root'
                if code = 0 then
                  ⟨some [("success", .vbool true),
                         ("message", .vstr ("Removed node: " ++ node_path))],
                   env', [.loadScene scene_path, .saveScene scene_path]⟩
                else
                  ⟨some (errDict "Failed to save scene"), env',
                   [.loadScene scene_path, .saveScene scene_path]⟩

/-- `_modify_node`: every requested value goes through
`_convert_property_value` and is then assigned unconditionally; every requested
property name is reported back in `modified_properties`. -/
def modifyNode (env : Env) (params : Dict) : OpOut :=
  match getStr params "scene_path" "" with
  | none => ⟨none, env, []⟩
  | some scene_path =>
    if scene_path = "" then
      ⟨some (errDict "scene_path and node_path are required"), env, []⟩
    else
      match getStr params "node_path" "" with
      | none => ⟨none, env, []⟩
      | some node_path =>
        if node_path = "" then
          ⟨some (errDict "scene_path and node_path are required"), env, []⟩
        else
          match getDict params "properties" with
          | none => ⟨none, env, []⟩
          | some properties =>
            match loadScene env scene_path with
            | none =>
              ⟨some (errDict ("Failed to load scene: " ++ scene_path)), env,
               [.loadScene scene_path]⟩
            | some root =>
              match (parsePath node_path).bind (resolveLoc root) with
              | none =>
                ⟨some (errDict ("Node not found: " ++ node_path)), env,
                 [.loadScene scene_path]⟩
              | some loc =>
                match convertProps properties with
                | none => ⟨none, env, [.loadScene scene_path]⟩
                | some converted =>
                  match updateAt (fun m => setProps env.exposes m converted) root loc with
                  | none => ⟨none, env, [.loadScene scene_path]⟩
                  | some root' =>
                    let (code, env') := saveSceneTo env scene_path root'
                    if code = 0 then
                      ⟨some [("success", .vbool true),
                             ("message", .vstr ("Modified properties on " ++ node_path)),
                             ("modified_properties",
                              .vlist (properties.map (fun kv => .vstr kv.1)))],
                       env', [.loadScene scene_path, .saveScene scene_path]⟩
                    else
                      ⟨some (errDict "Failed to save scene"), env',
                       [.loadScene scene_path, .saveScene scene_path]⟩

/-- `_read_scene`: read-only; loads, serializes, never saves. -/
def readScene (env : Env) (params : Dict) : OpOut :=
  match getStr params "scene_path" "" with
  | none => ⟨none, env, []⟩
  | some scene_path =>
    if scene_path = "" then ⟨some (errDict "scene_path is required"), env, []⟩
    else
      match loadScene env scene_path with
      | none =>
        ⟨some (errDict ("Failed to load scene: " ++ scene_path)), env,
         [.loadScene scene_path]⟩
      | some root =>
        ⟨some [("success", .vbool true),
               ("scene_path", .vstr scene_path),
               ("tree", serializeNodeTree root ".")],
         env, [.loadScene scene_path]⟩

/-- `_list_nodes`: read-only pre-order listing. -/
def listNodes (env : Env) (params : Dict) : OpOut :=
  match getStr params "scene_path" "" with
  | none => ⟨none, env, []⟩
  | some scene_path =>
    if scene_path = "" then ⟨some (errDict "scene_path is required"), env, []⟩
    else
      match loadScene env scene_path with
      | none =>
        ⟨some (errDict ("Failed to load scene: " ++ scene_path)), env,
         [.loadScene scene_path]⟩
      | some root =>
        ⟨some [("success", .vbool true),
               ("nodes", .vlist (collectNodePaths root "."))],
         env, [.loadScene scene_path]⟩

/-- `_generate_script_template`. -/
def generateScriptTemplate (extends_type class_name_str template : String) : String :=
  let head := (if class_name_str ≠ "" then "class_name " ++ class_name_str ++ "\n" else "")
    ++ "extends " ++ extends_type ++ "\n\n"
  let body :=
    match template with
    | "empty" => "# Empty script\npass\n"
    | "character_2d" =>
        "const SPEED = 300.0\nconst JUMP_VELOCITY = -400.0\n\n"
        ++ "func _physics_process(delta: float) -> void:\n"
        ++ "\t# Add gravity\n\tif not is_on_floor():\n\t\tvelocity += get_gravity() * delta\n\n"
        ++ "\t# Handle jump\n\tif Input.is_action_just_pressed(\"ui_accept\") and is_on_floor():\n"
        ++ "\t\tvelocity.y = JUMP_VELOCITY\n\n"
        ++ "\t# Get input direction\n\tvar direction := Input.get_axis(\"ui_left\", \"ui_right\")\n"
        ++ "\tif direction:\n\t\tvelocity.x = direction * SPEED\n"
        ++ "\telse:\n\t\tvelocity.x = move_toward(velocity.x, 0, SPEED)\n\n\tmove_and_slide()\n"
    | "character_3d" =>
        "const SPEED = 5.0\nconst JUMP_VELOCITY = 4.5\n\n"
        ++ "func _physics_process(delta: float) -> void:\n"
        ++ "\t# Add gravity\n\tif not is_on_floor():\n\t\tvelocity += get_gravity() * delta\n\n"
        ++ "\t# Handle jump\n\tif Input.is_action_just_pressed(\"ui_accept\") and is_on_floor():\n"
        ++ "\t\tvelocity.y = JUMP_VELOCITY\n\n"
        ++ "\t# Get input direction\n"
        ++ "\tvar input_dir := Input.get_vector(\"ui_left\", \"ui_right\", \"ui_up\", \"ui_down\")\n"
        ++ "\tvar direction := (transform.basis * Vector3(input_dir.x, 0, input_dir.y)).normalized()\n"
        ++ "\tif direction:\n\t\tvelocity.x = direction.x * SPEED\n\t\tvelocity.z = direction.z * SPEED\n"
        ++ "\telse:\n\t\tvelocity.x = move_toward(velocity.x, 0, SPEED)\n"
        ++ "\t\tvelocity.z = move_toward(velocity.z, 0, SPEED)\n\n\tmove_and_slide()\n"
    | _ =>
        "func _ready() -> void:\n\tpass\n\nfunc _process(delta: float) -> void:\n\tpass\n"
  head ++ body

/-- `_create_script`: writes a script file; touches no scene document. -/
def createScript (env : Env) (params : Dict) : OpOut :=
  match getStr params "script_path" "", getStr params "extends" "Node",
        getStr params "class_name" "", getStr params "content" "",
        getStr params "template" "default" with
  | some script_path, some extends_type, some class_name_str, some content, some template =>
    if script_path = "" then ⟨some (errDict "script_path is required"), env, []⟩
    else
      let _script_content :=
        if content ≠ "" then content
        else generateScriptTemplate extends_type class_name_str template
      if env.writeOk script_path then
        ⟨some [("success", .vbool true),
               ("message", .vstr ("Created script at " ++ script_path)),
               ("script_path", .vstr script_path)],
         { env with gdscripts := script_path :: env.gdscripts }, [.writeFile script_path]⟩
      else
        ⟨some (errDict "Failed to create script file"), env, [.writeFile script_path]⟩
  | _, _, _, _, _ => ⟨none, env, []⟩

/-- `_attach_script`. -/
def attachScript (env : Env) (params : Dict) : OpOut :=
  match getStr params "node_path" "." with
  | none => ⟨none, env, []⟩
  | some node_path =>
    match getStr params "scene_path" "" with
    | none => ⟨none, env, []⟩
    | some scene_path =>
      if scene_path = "" then
        ⟨some (errDict "scene_path and script_path are required"), env, []⟩
      else
        match getStr params "script_path" "" with
        | none => ⟨none, env, []⟩
        | some script_path =>
          if script_path = "" then
            ⟨some (errDict "scene_path and script_path are required"), env, []⟩
          else
            match loadScene env scene_path with
            | none =>
              ⟨some (errDict ("Failed to load scene: " ++ scene_path)), env,
               [.loadScene scene_path]⟩
            | some root =>
              if !env.gdscripts.contains script_path then
                ⟨some (errDict ("Failed to load script: " ++ script_path)), env,
                 [.loadScene scene_path, .loadScript script_path]⟩
              else
                match (parsePath node_path).bind (resolveLoc root) with
                | none =>
                  ⟨some (errDict ("Node not found: " ++ node_path)), env,
                   [.loadScene scene_path, .loadScript script_path]⟩
                | some loc =>
                  match updateAt (fun n => n.withScript (some script_path)) root loc with
                  | none => ⟨none, env, [.loadScene scene_path, .loadScript script_path]⟩
                  | some root' =>
                    let (code, env') := saveSceneTo env scene_path root'
                    if code = 0 then
                      ⟨some [("success", .vbool true),
                             ("message", .vstr ("Attached script " ++ script_path
                               ++ " to " ++ node_path))],
                       env', [.loadScene scene_path, .loadScript script_path,
                              .saveScene scene_path]⟩
                    else
                      ⟨some (errDict "Failed to save scene"), env',
                       [.loadScene scene_path, .loadScript script_path,
                        .saveScene scene_path]⟩

/-- The mutation `_create_animation` applies to the target node: reuse the
first `AnimationPlayer` child or append a fresh one, then insert-or-overwrite
the animation by name into its default-keyed library (created if absent). -/
def withCreateAnim (nm : String) (anim : AnimRec) (t : SceneNode) : SceneNode :=
  match t.children.findIdx? (fun c => c.typeName = "AnimationPlayer") with
  | some i =>
    match t.children.get? i with
    | some p =>
      t.withChildren (t.children.set i (p.withAnims (some (aset (p.anims.getD []) nm anim))))
    | none => t
  | none =>
    t.withChildren (t.children
      ++ [SceneNode.mk "AnimationPlayer" "AnimationPlayer" none [] (some [(nm, anim)]) []])

/-- `_create_animation`. -/
def createAnimation (env : Env) (params : Dict) : OpOut :=
  match getStr params "scene_path" "", getStr params "node_path" ".",
        getStr params "animation_name" "default", getNum params "duration" 1 with
  | some scene_path, some node_path, some animation_name, some duration =>
    let loop := variantTruthy (dgetD params "loop" (.vbool false))
    if scene_path = "" then ⟨some (errDict "scene_path is required"), env, []⟩
    else
      match loadScene env scene_path with
      | none =>
        ⟨some (errDict ("Failed to load scene: " ++ scene_path)), env,
         [.loadScene scene_path]⟩
      | some root =>
        match (parsePath node_path).bind (resolveLoc root) with
        | none =>
          ⟨some (errDict ("Node not found: " ++ node_path)), env,
           [.loadScene scene_path]⟩
        | some loc =>
          let anim : AnimRec := ⟨duration, loop, []⟩
          match updateAt (withCreateAnim animation_name anim) root loc with
          | none => ⟨none, env, [.loadScene scene_path]⟩
          | some root' =>
            let (code, env') := saveSceneTo env scene_path root'
            if code = 0 then
              ⟨some [("success", .vbool true),
                     ("message", .vstr ("Created animation '" ++ animation_name
                       ++ "' with duration " ++ toString duration ++ "s"))],
               env', [.loadScene scene_path, .saveScene scene_path]⟩
            else
              ⟨some (errDict "Failed to save scene"), env',
               [.loadScene scene_path, .saveScene scene_path]⟩
  | _, _, _, _ => ⟨none, env, []⟩

/-- The keyframe loop of `_add_animation_track`: each keyframe dictionary
contributes `(time, converted value)` in the order given, with no sorting and
no deduplication; a non-dictionary keyframe or a failing conversion is a
runtime error. -/
def convertKeyframes : List Variant → Option (List (ℚ × Variant))
  | [] => some []
  | .vdict kf :: rest =>
    match asNum (dgetD kf "time" (.vnum 0)) with
    | none => none
    | some tm =>
      match convertPropertyValue (dgetD kf "value" .vnull) with
      | none => none
      | some w => (convertKeyframes rest).map ((tm, w) :: ·)
  | _ :: _ => none

/-- `_add_animation_track`. -/
def addAnimationTrack (env : Env) (params : Dict) : OpOut :=
  match getStr params "scene_path" "", getStr params "animation_player_path" "",
        getStr params "animation_name" "default", getStr params "target_node_path" "",
        getStr params "property" "", getList params "keyframes" with
  | some scene_path, some animation_player_path, some animation_name,
    some target_node_path, some property, some keyframes =>
    if scene_path = "" then
      ⟨some (errDict "scene_path and animation_player_path are required"), env, []⟩
    else if animation_player_path = "" then
      ⟨some (errDict "scene_path and animation_player_path are required"), env, []⟩
    else
      match loadScene env scene_path with
      | none =>
        ⟨some (errDict ("Failed to load scene: " ++ scene_path)), env,
         [.loadScene scene_path]⟩
      | some root =>
        match (parsePath animation_player_path).bind (resolveLoc root) with
        | none =>
          ⟨some (errDict ("AnimationPlayer not found: " ++ animation_player_path)), env,
           [.loadScene scene_path]⟩
        | some loc =>
          match nodeAt root loc with
          | none => ⟨none, env, [.loadScene scene_path]⟩
          | some player =>
            if player.typeName ≠ "AnimationPlayer" then
              ⟨some (errDict ("AnimationPlayer not found: " ++ animation_player_path)), env,
               [.loadScene scene_path]⟩
            else
              match aget (player.anims.getD []) animation_name with
              | none =>
                ⟨some (errDict ("Animation not found: " ++ animation_name)), env,
                 [.loadScene scene_path]⟩
              | some anim =>
                match convertKeyframes keyframes with
                | none => ⟨none, env, [.loadScene scene_path]⟩
                | some keys =>
                  let anim' : AnimRec :=
                    { anim with tracks :=
                        anim.tracks ++ [(target_node_path ++ ":" ++ property, keys)] }
                  match updateAt
                      (fun p => p.withAnims (some (aset (p.anims.getD []) animation_name anim')))
                      root loc with
                  | none => ⟨none, env, [.loadScene scene_path]⟩
                  | some root' =>
                    let (code, env') := saveSceneTo env scene_path root'
                    if code = 0 then
                      ⟨some [("success", .vbool true),
                             ("message", .vstr ("Added animation track for " ++ property
                               ++ " on " ++ target_node_path))],
                       env', [.loadScene scene_path, .saveScene scene_path]⟩
                    else
                      ⟨some (errDict "Failed to save scene"), env',
                       [.loadScene scene_path, .saveScene scene_path]⟩
  | _, _, _, _, _, _ => ⟨none, env, []⟩

/-- `_create_resource`. -/
def createResource (env : Env) (params : Dict) : OpOut :=
  match getStr params "resource_path" "" with
  | none => ⟨none, env, []⟩
  | some resource_path =>
    if resource_path = "" then
      ⟨some (errDict "resource_path and resource_type are required"), env, []⟩
    else
      match getStr params "resource_type" "" with
      | none => ⟨none, env, []⟩
      | some resource_type =>
        if resource_type = "" then
          ⟨some (errDict "resource_path and resource_type are required"), env, []⟩
        else
          match getDict params "properties" with
          | none => ⟨none, env, []⟩
          | some properties =>
            match createResourceOfType env resource_type with
            | none =>
              ⟨some (errDict ("Unknown resource type: " ++ resource_type)), env, []⟩
            | some res0 =>
              match convertProps properties with
              | none => ⟨none, env, []⟩
              | some converted =>
                let finalProps := converted.foldl
                  (fun acc kv =>
                    if env.exposes resource_type kv.1 then aset acc kv.1 kv.2 else acc)
                  res0.props
                let res : ResourceRec := { res0 with props := finalProps }
                if env.saveRes resource_path = 0 then
                  ⟨some [("success", .vbool true),
                         ("message", .vstr ("Created " ++ resource_type ++ " at "
                           ++ resource_path))],
                   { env with resources := aset env.resources resource_path res },
                   [.saveResource resource_path]⟩
                else
                  ⟨some (errDict "Failed to save resource"), env,
                   [.saveResource resource_path]⟩

/-- `_get_project_info`. -/
def getProjectInfo (env : Env) (_params : Dict) : OpOut :=
  if !env.projectLoaded then
    ⟨some (errDict "Failed to load project.godot"), env, [.loadConfig]⟩
  else
    ⟨some [("success", .vbool true),
           ("project_name", env.projectName),
           ("main_scene", env.mainScene),
           ("godot_version", env.versionInfo),
           ("project_path", .vstr env.projectPathStr)],
     env, [.loadConfig]⟩

/-- `_list_scenes`. -/
def listScenes (env : Env) (_params : Dict) : OpOut :=
  ⟨some [("success", .vbool true), ("scenes", .vlist env.sceneFiles)], env, [.scanFiles]⟩

/-- `_list_scripts`. -/
def listScripts (env : Env) (_params : Dict) : OpOut :=
  ⟨some [("success", .vbool true), ("scripts", .vlist env.scriptFiles)], env, [.scanFiles]⟩

/-- `_execute_operation`: the string-keyed dispatch table; an unsupported name
terminates immediately with the generic unknown-operation error, performing no
I/O. -/
def executeOperation (env : Env) (operation : String) (params : Dict) : OpOut :=
  match operation with
  | "create_scene" => createScene env params
  | "add_node" => addNode env params
  | "remove_node" => removeNode env params
  | "modify_node" => modifyNode env params
  | "read_scene" => readScene env params
  | "list_nodes" => listNodes env params
  | "create_script" => createScript env params
  | "attach_script" => attachScript env params
  | "create_animation" => createAnimation env params
  | "add_animation_track" => addAnimationTrack env params
  | "create_resource" => createResource env params
  | "get_project_info" => getProjectInfo env params
  | "list_scenes" => listScenes env params
  | "list_scripts" => listScripts env params
  | _ => ⟨some (errDict ("Unknown operation: " ++ operation)), env, []⟩

/-- The outcome of one engine invocation (`_init`): the result record framed to
standard output (if any was emitted before termination), the process exit code
requested through `quit` (`none` models a script runtime error that never
reaches `quit`), the final environment, and the document I/O performed. -/
structure InitOut where
  framed : Option Dict
  exit : Option Nat
  env : Env
  io : List IOEvent

/-- `_init`: parses the user command-line arguments, dispatches, frames the
result, and quits.  Missing operation or an unparsable parameter payload emit a
framed error and quit with code 1; a dispatched operation's result is framed
and the process quits with code 0 regardless of the result's `success`.
`parse` models `JSON.parse` of the second argument (error value = message from
`get_error_message`); a payload that parses to a non-dictionary is a runtime
error at the typed call to `_execute_operation`. -/
def gdInit (env : Env) (args : List String) (parse : String → Except String Variant) : InitOut :=
  match args with
  | [] => ⟨some (errDict "No operation specified"), some 1, env, []⟩
  | operation :: rest =>
    let runWith (params : Dict) : InitOut :=
      let out := executeOperation env operation params
      match out.res with
      | some r => ⟨some r, some 0, out.env, out.io⟩
      | none => ⟨none, none, out.env, out.io⟩
    match rest with
    | [] => runWith []
    | payload :: _ =>
      match parse payload with
      | .error msg => ⟨some (errDict ("Failed to parse parameters: " ++ msg)), some 1, env, []⟩
      | .ok (.vdict d) => runWith d
      | .ok _ => ⟨none, none, env, []⟩

/-- Whitespace for the purposes of `String.prototype.trim`. -/
def isWs (c : Char) : Bool :=
  c = ' ' || c = '\n' || c = '\t' || c = '\r'

/-- JS `String.prototype.trim`: strips leading and trailing whitespace. -/
def trimStr (s : String) : String :=
  ⟨((s.toList.dropWhile isWs).reverse.dropWhile isWs).reverse⟩

/-- First index at which `pat` occurs as a substring. -/
def findSub (pat : List Char) : List Char → Option Nat
  | [] => if pat.isEmpty then some 0 else none
  | c :: rest =>
    if pat.isPrefixOf (c :: rest) then some 0
    else (findSub pat rest).map (· + 1)

/-- Last index at which `pat` occurs as a substring. -/
def findLastSub (pat s : List Char) : Option Nat :=
  (((List.range (s.length + 1)).filter (fun i => pat.isPrefixOf (s.drop i)))).getLast?

/-- The capture group of the host-side regex
`\x5bGODOT_MCP_RESULT\x5d(.*)\x5b/GODOT_MCP_RESULT\x5d` with the dot-all flag:
the text from the end of the first opening marker to the start of the last
closing marker after it (the greedy `.*`); `none` when no such pair exists. -/
def markerContent (stdout : String) : Option String :=
  let cs := stdout.toList
  let openM := "[GODOT_MCP_RESULT]".toList
  let closeM := "[/GODOT_MCP_RESULT]".toList
  match findSub openM cs with
  | none => none
  | some i =>
    let rest := cs.drop (i + openM.length)
    match findLastSub closeM rest with
    | none => none
    | some j => some ⟨rest.take j⟩

/-- The record the host-side decoder reads off a parsed framed result: the
optional `success` / `output` / `message` / `error` fields it accesses, plus
`JSON.stringify` of the whole record (the final fallback for `output`). -/
structure ParsedResult where
  success : Option Bool
  output : Option String
  message : Option String
  error : Option String
  stringified : String

/-- `ExecutionResult` from executor.ts. -/
structure ExecutionResult where
  success : Bool
  output : String
  error : Option String

/-- The fallback branch of the close handler in `execute`: exit code zero means
success, trimmed stdout is the output, trimmed stderr is the error (absent when
stderr trims to empty). -/
def fallbackResult (code : Option Int) (stdout stderr : String) : ExecutionResult :=
  ⟨decide (code = some 0), trimStr stdout,
   if trimStr stderr = "" then none else some (trimStr stderr)⟩

/-- The `close` handler of `GodotExecutor.execute`: extract the marked block
from accumulated stdout, JSON-decode its trimmed text (`parse` models
`JSON.parse`), and on any failure fall back to `fallbackResult`.  On a decoded
record: `success ?? true`, `output ?? message ?? JSON.stringify(record)`, and
the record's `error`. -/
def closeHandler (parse : String → Option ParsedResult) (code : Option Int)
    (stdout stderr : String) : ExecutionResult :=
  match markerContent stdout with
  | some content =>
    match parse (trimStr content) with
    | some r =>
      ⟨r.success.getD true, ((r.output).or r.message).getD r.stringified, r.error⟩
    | none => fallbackResult code stdout stderr
  | none => fallbackResult code stdout stderr

/-- Everything a spawned process may later do, which a fire-and-forget launch
never consults: its exit code (or none if killed), whether spawning itself
errored, and whatever it writes to its streams. -/
structure ProcessBehavior where
  exitCode : Option Int
  spawnErrored : Bool
  stdout : String
  stderr : String

/-- `GodotExecutor.launchEditor`: spawns detached, unrefs, and resolves success
immediately; no handler ever consults the spawned process again. -/
def launchEditor (projectPath : String) (_spawned : ProcessBehavior) : ExecutionResult :=
  ⟨true, "Launched Godot editor for project at " ++ projectPath, none⟩

/-- `GodotExecutor.runProject`: spawns detached, unrefs, and resolves success
immediately; no handler ever consults the spawned process again. -/
def runProject (projectPath : String) (_spawned : ProcessBehavior) : ExecutionResult :=
  ⟨true, "Running project at " ++ projectPath, none⟩

/-- The OperationResult well-formedness invariant checked against every
completed dispatch: `success` is a boolean, `message` and `error` are never
both populated, `success = false` implies `error` is populated, and
`success = true` implies `error` is absent. -/
def resultWF (r : Dict) : Bool :=
  (match aget r "success" with
   | some (.vbool _) => true
   | _ => false)
  && !((aget r "message").isSome && (aget r "error").isSome)
  && ((match aget r "success" with
       | some (.vbool false) => false
       | _ => true) || (aget r "error").isSome)
  && ((match aget r "success" with
       | some (.vbool true) => false
       | _ => true) || !(aget r "error").isSome)

/-- The root of the demo scene used by witnesses and counterexamples:
`Root : Node2D` with a single child `Child : Sprite2D`. -/
def demoRoot : SceneNode :=
  SceneNode.mk "Root" "Node2D" none [] none [SceneNode.mk "Child" "Sprite2D" none [] none []]

/-- A small concrete project used by witnesses and counterexamples: one scene
file `res://s.tscn` holding `demoRoot`; saving and file writes succeed;
property exposure is given by `expo`. -/
def baseEnv (expo : String → String → Bool) : Env where
  scenes := [("res://s.tscn", demoRoot)]
  gdscripts := ["res://player.gd"]
  resources := []
  saveRes := fun _ => 0
  writeOk := fun _ => true
  packOk := true
  classExists := fun _ => false
  classIsResource := fun _ => false
  exposes := expo
  projectLoaded := true
  projectName := .vstr "Demo"
  mainScene := .vstr "res://s.tscn"
  versionInfo := .vdict []
  projectPathStr := "/proj/"
  sceneFiles := [.vstr "res://s.tscn"]
  scriptFiles := [.vstr "res://player.gd"]

/-- The concrete project with no property exposed by any class. -/
def envNone : Env := baseEnv (fun _ _ => false)

/-- The concrete project with every property exposed by every class. -/
def envAll : Env := baseEnv (fun _ _ => true)

/-- A `JSON.parse` oracle that succeeds on every payload with the empty
dictionary. -/
def parseOkEmpty : String → Except String Variant := fun _ => .ok (.vdict [])

/-- A `JSON.parse` oracle (host side) that fails on every payload. -/
def parseNone : String → Option ParsedResult := fun _ => none

theorem createScene_wf (env : Env) (params : Dict) (r : Dict)
    (h : (createScene env params).res = some r) : resultWF r = true := by
  unfold createScene at h
  repeat' first
    | split at h
    | dsimp only [] at h
  all_goals first
    | (injection h with h; subst h; rfl)
    | injection h

theorem addNode_wf (env : Env) (params : Dict) (r : Dict)
    (h : (addNode env params).res = some r) : resultWF r = true := by
  unfold addNode at h
  repeat' first
    | split at h
    | dsimp only [] at h
  all_goals first
    | (injection h with h; subst h; rfl)
    | injection h

theorem removeNode_wf (env : Env) (params : Dict) (r : Dict)
    (h : (removeNode env params).res = some r) : resultWF r = true := by
  unfold removeNode at h
  repeat' first
    | split at h
    | dsimp only [] at h
  all_goals first
    | (injection h with h; subst h; rfl)
    | injection h

theorem modifyNode_wf (env : Env) (params : Dict) (r : Dict)
    (h : (modifyNode env params).res = some r) : resultWF r = true := by
  unfold modifyNode at h
  repeat' first
    | split at h
    | dsimp only [] at h
  all_goals first
    | (injection h with h; subst h; rfl)
    | injection h

theorem readScene_wf (env : Env) (params : Dict) (r : Dict)
    (h : (readScene env params).res = some r) : resultWF r = true := by
  unfold readScene at h
  repeat' first
    | split at h
    | dsimp only [] at h
  all_goals first
    | (injection h with h; subst h; rfl)
    | injection h

theorem listNodes_wf (env : Env) (params : Dict) (r : Dict)
    (h : (listNodes env params).res = some r) : resultWF r = true := by
  unfold listNodes at h
  repeat' first
    | split at h
    | dsimp only [] at h
  all_goals first
    | (injection h with h; subst h; rfl)
    | injection h

theorem createScript_wf (env : Env) (params : Dict) (r : Dict)
    (h : (createScript env params).res = some r) : resultWF r = true := by
  unfold createScript at h
  repeat' first
    | split at h
    | dsimp only [] at h
  all_goals first
    | (injection h with h; subst h; rfl)
    | injection h

theorem attachScript_wf (env : Env) (params : Dict) (r : Dict)
    (h : (attachScript env params).res = some r) : resultWF r = true := by
  unfold attachScript at h
  repeat' first
    | split at h
    | dsimp only [] at h
  all_goals first
    | (injection h with h; subst h; rfl)
    | injection h

theorem createAnimation_wf (env : Env) (params : Dict) (r : Dict)
    (h : (createAnimation env params).res = some r) : resultWF r = true := by
  unfold createAnimation at h
  repeat' first
    | split at h
    | dsimp only [] at h
  all_goals first
    | (injection h with h; subst h; rfl)
    | injection h

theorem addAnimationTrack_wf (env : Env) (params : Dict) (r : Dict)
    (h : (addAnimationTrack env params).res = some r) : resultWF r = true := by
  unfold addAnimationTrack at h
  repeat' first
    | split at h
    | dsimp only [] at h
  all_goals first
    | (injection h with h; subst h; rfl)
    | injection h

theorem createResource_wf (env : Env) (params : Dict) (r : Dict)
    (h : (createResource env params).res = some r) : resultWF r = true := by
  unfold createResource at h
  repeat' first
    | split at h
    | dsimp only [] at h
  all_goals first
    | (injection h with h; subst h; rfl)
    | injection h

theorem getProjectInfo_wf (env : Env) (params : Dict) (r : Dict)
    (h : (getProjectInfo env params).res = some r) : resultWF r = true := by
  unfold getProjectInfo at h
  split at h
  all_goals (injection h with h; subst h; rfl)

theorem listScenes_wf (env : Env) (params : Dict) (r : Dict)
    (h : (listScenes env params).res = some r) : resultWF r = true := by
  unfold listScenes at h
  injection h with h
  subst h
  rfl

theorem listScripts_wf (env : Env) (params : Dict) (r : Dict)
    (h : (listScripts env params).res = some r) : resultWF r = true := by
  unfold listScripts at h
  injection h with h
  subst h
  rfl

theorem executeOperation_wf (env : Env) (operation : String) (params : Dict) (r : Dict)
    (h : (executeOperation env operation params).res = some r) : resultWF r = true := by
  unfold executeOperation at h
  split at h
  case _ => exact createScene_wf _ _ _ h
  case _ => exact addNode_wf _ _ _ h
  case _ => exact removeNode_wf _ _ _ h
  case _ => exact modifyNode_wf _ _ _ h
  case _ => exact readScene_wf _ _ _ h
  case _ => exact listNodes_wf _ _ _ h
  case _ => exact createScript_wf _ _ _ h
  case _ => exact attachScript_wf _ _ _ h
  case _ => exact createAnimation_wf _ _ _ h
  case _ => exact addAnimationTrack_wf _ _ _ h
  case _ => exact createResource_wf _ _ _ h
  case _ => exact getProjectInfo_wf _ _ _ h
  case _ => exact listScenes_wf _ _ _ h
  case _ => exact listScripts_wf _ _ _ h
  case _ => injection h with h; subst h; rfl

theorem convertPropertyValue_idem (v : Variant) :
    (convertPropertyValue v).bind convertPropertyValue = convertPropertyValue v := by
  cases v <;> try rfl
  rename_i d
  unfold convertPropertyValue
  split <;> (repeat' split) <;> simp_all [convertPropertyValue]

theorem convertPropertyValue_notTagged (v : Variant) (h : notTagged v = true) :
    convertPropertyValue v = some v := by
  cases v <;> try rfl
  rename_i d
  simp only [notTagged, Option.isNone_iff_eq_none] at h
  simp [convertPropertyValue, h]

theorem convertPropertyValue_unrecognized (d : Dict) (t : Variant)
    (h1 : aget d "_type" = some t) (h2 : recognizedTag t = false) :
    convertPropertyValue (.vdict d) = some (.vdict d) := by
  unfold convertPropertyValue
  dsimp only []
  rw [h1]
  split <;> simp_all [recognizedTag]

/-- Claim C5: the value converter maps the tagged record
`(_type Color, r 1, g 0, b 0)` to the native color `(1, 0, 0, 1)` — the alpha
channel defaulting to 1, i.e. opaque red — and the tagged record
`(_type Vector2, x 5)` to the native vector `(5, 0)`, the missing component
defaulting to 0. -/
theorem claim_C5 :
    convertPropertyValue
        (.vdict [("_type", .vstr "Color"), ("r", .vnum 1), ("g", .vnum 0), ("b", .vnum 0)])
      = some (.vColor 1 0 0 1)
    ∧ convertPropertyValue (.vdict [("_type", .vstr "Vector2"), ("x", .vnum 5)])
      = some (.vVector2 5 0) :=
  ⟨rfl, rfl⟩

/-- Claim C6: value conversion is idempotent — applying the converter to a
converter output returns that output unchanged (stated in the `Option` monad
because a malformed component is a runtime error) — converting any value that
is not a `_type`-tagged dictionary is a no-op, and a dictionary whose `_type`
discriminator names an unrecognized type passes through unchanged with no
error raised. -/
theorem claim_C6 :
    (∀ v, (convertPropertyValue v).bind convertPropertyValue = convertPropertyValue v)
    ∧ (∀ v, notTagged v = true → convertPropertyValue v = some v)
    ∧ (∀ (d : Dict) (t : Variant), aget d "_type" = some t → recognizedTag t = false →
        convertPropertyValue (.vdict d) = some (.vdict d)) :=
  ⟨convertPropertyValue_idem, convertPropertyValue_notTagged, convertPropertyValue_unrecognized⟩

/-- Witness for C6 at concrete inputs: a native vector, a plain number, and a
dictionary tagged with the unrecognized type name `Quaternion`. -/
theorem claim_C6_witness :
    ((convertPropertyValue (.vVector2 3 4)).bind convertPropertyValue
      = convertPropertyValue (.vVector2 3 4))
    ∧ convertPropertyValue (.vnum 7) = some (.vnum 7)
    ∧ convertPropertyValue (.vdict [("_type", .vstr "Quaternion"), ("x", .vnum 1)])
        = some (.vdict [("_type", .vstr "Quaternion"), ("x", .vnum 1)]) :=
  ⟨claim_C6.1 _, claim_C6.2.1 _ (by rfl), claim_C6.2.2 _ _ (by rfl) (by rfl)⟩

/-- Claim C8: whenever the accumulated stdout contains no marker pair, or the
text between the markers fails to JSON-decode, the host-side close handler
returns success equal to (exit code = 0), output equal to the trimmed stdout,
and error equal to the trimmed stderr (absent when stderr trims to empty). -/
theorem claim_C8 (parse : String → Option ParsedResult) (code : Option Int)
    (stdout stderr : String)
    (h : markerContent stdout = none
         ∨ ∃ c, markerContent stdout = some c ∧ parse (trimStr c) = none) :
    closeHandler parse code stdout stderr =
      ⟨decide (code = some 0), trimStr stdout,
       if trimStr stderr = "" then none else some (trimStr stderr)⟩ := by
  unfold closeHandler
  rcases h with h | ⟨c, hc, hp⟩
  · rw [h]; rfl
  · rw [hc]; dsimp only []; rw [hp]; rfl

/-- Witness for C8: stdout with no marker pair, a nonzero exit code, and
nonempty stderr produce the fallback record. -/
theorem claim_C8_witness :
    closeHandler parseNone (some 1) "Godot Engine warning" "boom" =
      ⟨decide ((some 1 : Option Int) = some 0), trimStr "Godot Engine warning",
       if trimStr "boom" = "" then none else some (trimStr "boom")⟩ :=
  claim_C8 parseNone (some 1) "Godot Engine warning" "boom" (Or.inl rfl)

/-- Claim C9: the fire-and-forget launches report success immediately upon
spawn and their results are independent of anything the spawned process later
does (they register no handler and never await it). -/
theorem claim_C9 (projectPath : String) (b b' : ProcessBehavior) :
    launchEditor projectPath b = launchEditor projectPath b'
    ∧ (launchEditor projectPath b).success = true
    ∧ runProject projectPath b = runProject projectPath b'
    ∧ (runProject projectPath b).success = true :=
  ⟨rfl, rfl, rfl, rfl⟩

/-- Claim C1 (counterexample): a completed `read_scene` invocation returns
`success = true` with neither `message` nor `error` populated, so it is false
that exactly one of `message`/`error` is populated on every completion. -/
theorem claim_C1_counterexample :
    ((executeOperation envNone "read_scene" [("scene_path", .vstr "res://s.tscn")]).res.map
      (fun r => (aget r "success", (aget r "message").isSome, (aget r "error").isSome)))
    = some (some (.vbool true), false, false) := by rfl

/-- Claim C1 (amended): for every operation invocation that completes and
produces an OperationResult, `success` is a boolean, at most one of `message`
and `error` is populated (successful results of the read-only and listing
operations populate neither), `success = false` implies `error` is set, and
`success = true` implies `error` is absent. -/
theorem claim_C1 (env : Env) (operation : String) (params : Dict) (r : Dict)
    (h : (executeOperation env operation params).res = some r) : resultWF r = true :=
  executeOperation_wf env operation params r h

/-- Witness for C1 at a concrete completed invocation. -/
theorem claim_C1_witness : resultWF (errDict "Unknown operation: bogus") = true :=
  claim_C1 envNone "bogus" [] (errDict "Unknown operation: bogus") rfl

/-- Claim C2: for every operation name outside the dispatch table, dispatch
returns exactly the failure record with error `"Unknown operation: " ++ name`,
leaves the environment untouched, and performs no document I/O. -/
theorem claim_C2 (env : Env) (operation : String) (params : Dict)
    (h : operation ∉ (["create_scene", "add_node", "remove_node", "modify_node",
      "read_scene", "list_nodes", "create_script", "attach_script", "create_animation",
      "add_animation_track", "create_resource", "get_project_info", "list_scenes",
      "list_scripts"] : List String)) :
    executeOperation env operation params =
      ⟨some [("success", .vbool false),
             ("error", .vstr ("Unknown operation: " ++ operation))], env, []⟩ := by
  unfold executeOperation
  split
  all_goals first | rfl | simp_all

/-- Witness for C2 at the operation name `"bogus"`. -/
theorem claim_C2_witness :
    executeOperation envNone "bogus" [] =
      ⟨some [("success", .vbool false), ("error", .vstr "Unknown operation: bogus")],
       envNone, []⟩ :=
  claim_C2 envNone "bogus" [] (by decide)

/-- Claim C3: every `remove_node` invocation whose `node_path` resolves to the
document root returns the distinct "Cannot remove root node" failure (not a
not-found error, not a silent success), leaves the environment — and hence the
on-disk scene — untouched, and performs no save. -/
theorem claim_C3 (env : Env) (params : Dict) (sp np : String) (root : SceneNode)
    (hsp : aget params "scene_path" = some (.vstr sp))
    (hnp : aget params "node_path" = some (.vstr np))
    (hsp2 : sp ≠ "") (hnp2 : np ≠ "")
    (hload : loadScene env sp = some root)
    (hroot : (parsePath np).bind (resolveLoc root) = some []) :
    executeOperation env "remove_node" params =
      ⟨some [("success", .vbool false), ("error", .vstr "Cannot remove root node")],
       env, [.loadScene sp]⟩ := by
  have e1 : getStr params "scene_path" "" = some sp := by simp [getStr, hsp]
  have e2 : getStr params "node_path" "" = some np := by simp [getStr, hnp]
  have edisp : executeOperation env "remove_node" params = removeNode env params := rfl
  rw [edisp]
  unfold removeNode
  rw [e1]
  dsimp only []
  rw [if_neg hsp2, e2]
  dsimp only []
  rw [if_neg hnp2, hload]
  dsimp only []
  rw [hroot]
  rfl

/-- Witness for C3: removing `"."` from the demo scene. -/
theorem claim_C3_witness :
    executeOperation envNone "remove_node"
        [("scene_path", .vstr "res://s.tscn"), ("node_path", .vstr ".")] =
      ⟨some [("success", .vbool false), ("error", .vstr "Cannot remove root node")],
       envNone, [.loadScene "res://s.tscn"]⟩ :=
  claim_C3 envNone _ "res://s.tscn" "." demoRoot rfl rfl (by decide) (by decide) rfl rfl

/-- Claim C4 (counterexample): `modify_node` given a property key that the
target node type does not expose (here `bogus_prop` on a `Node2D` in an
environment exposing no properties at all) does not fail at the
property-assignment step: it completes with `success = true`, reports the key
in `modified_properties`, and saves the document unchanged. -/
theorem claim_C4_counterexample :
    executeOperation envNone "modify_node"
        [("scene_path", .vstr "res://s.tscn"), ("node_path", .vstr "."),
         ("properties", .vdict [("bogus_prop", .vnum 5)])] =
      ⟨some [("success", .vbool true), ("message", .vstr "Modified properties on ."),
             ("modified_properties", .vlist [.vstr "bogus_prop"])],
       withScene envNone "res://s.tscn" demoRoot,
       [.loadScene "res://s.tscn", .saveScene "res://s.tscn"]⟩ := by rfl

/-- Claim C4 (amended): `add_node` with a properties record containing a key
the target node type does not expose succeeds and silently skips that key
(the new node carries no properties), while `modify_node` converts and assigns
every requested property unconditionally with no existence check — but it does
not fail on the unknown key: the engine-level assignment silently ignores it,
and `modify_node` completes with `success = true`, listing the key in
`modified_properties`, the saved document unchanged. -/
theorem claim_C4_amended (env : Env) (sp t k nm : String) (v w : Variant) (root : SceneNode)
    (hload : loadScene env sp = some root)
    (hsp : sp ≠ "")
    (hnode : createNodeOfType env t = some (freshNode t))
    (hexpA : env.exposes t k = false)
    (hexpM : env.exposes root.typeName k = false)
    (hconv : convertPropertyValue v = some w)
    (hsave : env.saveRes sp = 0) :
    (executeOperation env "add_node"
        [("scene_path", .vstr sp), ("node_type", .vstr t), ("node_name", .vstr nm),
         ("properties", .vdict [(k, v)])] =
      ⟨some [("success", .vbool true),
             ("message", .vstr ("Added " ++ t ++ " node '" ++ nm ++ "' to " ++ ".")),
             ("node_path", .vstr nm)],
       withScene env sp (root.withChildren (root.children
         ++ [((freshNode t).withName nm).withProps []])),
       [.loadScene sp, .saveScene sp]⟩)
    ∧ (executeOperation env "modify_node"
        [("scene_path", .vstr sp), ("node_path", .vstr "."),
         ("properties", .vdict [(k, v)])] =
      ⟨some [("success", .vbool true),
             ("message", .vstr ("Modified properties on " ++ ".")),
             ("modified_properties", .vlist [.vstr k])],
       withScene env sp root,
       [.loadScene sp, .saveScene sp]⟩) := by
  constructor
  · have edisp : executeOperation env "add_node"
        [("scene_path", .vstr sp), ("node_type", .vstr t), ("node_name", .vstr nm),
         ("properties", .vdict [(k, v)])]
      = addNode env
        [("scene_path", .vstr sp), ("node_type", .vstr t), ("node_name", .vstr nm),
         ("properties", .vdict [(k, v)])] := rfl
    rw [edisp]
    unfold addNode
    rw [show getStr [("scene_path", Variant.vstr sp), ("node_type", .vstr t),
         ("node_name", .vstr nm), ("properties", .vdict [(k, v)])] "scene_path" ""
       = some sp from rfl]
    rw [show getStr [("scene_path", Variant.vstr sp), ("node_type", .vstr t),
         ("node_name", .vstr nm), ("properties", .vdict [(k, v)])] "parent_path" "."
       = some "." from rfl]
    rw [show getStr [("scene_path", Variant.vstr sp), ("node_type", .vstr t),
         ("node_name", .vstr nm), ("properties", .vdict [(k, v)])] "node_type" "Node"
       = some t from rfl]
    rw [show getStr [("scene_path", Variant.vstr sp), ("node_type", .vstr t),
         ("node_name", .vstr nm), ("properties", .vdict [(k, v)])] "node_name" "NewNode"
       = some nm from rfl]
    rw [show getDict [("scene_path", Variant.vstr sp), ("node_type", .vstr t),
         ("node_name", .vstr nm), ("properties", .vdict [(k, v)])] "properties"
       = some [(k, v)] from rfl]
    simp only []
    rw [if_neg hsp, hload]
    simp only []
    rw [show (parsePath ".").bind (resolveLoc root) = some [] from rfl]
    simp only []
    rw [hnode]
    simp only [updateAt]
    simp only [saveSceneTo, hsave]
    simp only [addNodeProps, List.foldl, hexpA, Bool.false_eq_true, if_false]
    rfl
  · have edisp : executeOperation env "modify_node"
        [("scene_path", .vstr sp), ("node_path", .vstr "."), ("properties", .vdict [(k, v)])]
      = modifyNode env
        [("scene_path", .vstr sp), ("node_path", .vstr "."), ("properties", .vdict [(k, v)])] := rfl
    rw [edisp]
    unfold modifyNode
    rw [show getStr [("scene_path", Variant.vstr sp), ("node_path", .vstr "."),
         ("properties", .vdict [(k, v)])] "scene_path" "" = some sp from rfl]
    simp only []
    rw [if_neg hsp]
    rw [show getStr [("scene_path", Variant.vstr sp), ("node_path", .vstr "."),
         ("properties", .vdict [(k, v)])] "node_path" "" = some "." from rfl]
    simp only []
    rw [if_neg (show ("." : String) ≠ "" by decide)]
    rw [show getDict [("scene_path", Variant.vstr sp), ("node_path", .vstr "."),
         ("properties", .vdict [(k, v)])] "properties" = some [(k, v)] from rfl]
    simp only []
    rw [hload]
    simp only []
    rw [show (parsePath ".").bind (resolveLoc root) = some [] from rfl]
    simp only []
    simp only [convertProps, hconv, Option.map, List.map]
    simp only [updateAt, setProps, List.foldl, hexpM, Bool.false_eq_true, if_false]
    simp only [saveSceneTo, hsave]
    rfl

/-- Witness for C4 at the unknown key `bogus_prop` on a `Node2D`. -/
theorem claim_C4_witness :
    (executeOperation envNone "add_node"
        [("scene_path", .vstr "res://s.tscn"), ("node_type", .vstr "Node2D"),
         ("node_name", .vstr "N"), ("properties", .vdict [("bogus_prop", .vnum 5)])] =
      ⟨some [("success", .vbool true),
             ("message", .vstr ("Added " ++ "Node2D" ++ " node '" ++ "N" ++ "' to " ++ ".")),
             ("node_path", .vstr "N")],
       withScene envNone "res://s.tscn" (demoRoot.withChildren (demoRoot.children
         ++ [((freshNode "Node2D").withName "N").withProps []])),
       [.loadScene "res://s.tscn", .saveScene "res://s.tscn"]⟩)
    ∧ (executeOperation envNone "modify_node"
        [("scene_path", .vstr "res://s.tscn"), ("node_path", .vstr "."),
         ("properties", .vdict [("bogus_prop", .vnum 5)])] =
      ⟨some [("success", .vbool true),
             ("message", .vstr ("Modified properties on " ++ ".")),
             ("modified_properties", .vlist [.vstr "bogus_prop"])],
       withScene envNone "res://s.tscn" demoRoot,
       [.loadScene "res://s.tscn", .saveScene "res://s.tscn"]⟩) :=
  claim_C4_amended envNone "res://s.tscn" "Node2D" "bogus_prop" "N" (.vnum 5) (.vnum 5)
    demoRoot rfl (by decide) rfl rfl rfl rfl rfl

/-- Claim C7: whenever an operation name is supplied and the parameter payload
parses to a dictionary, the engine invocation that completes quits with exit
code 0 — even when the dispatched operation fails; operation-level failure is
reported only through the framed result. -/
theorem claim_C7 (env : Env) (operation : String) (rest : List String)
    (parse : String → Except String Variant) (r : Dict)
    (hparse : ∀ p rest2, rest = p :: rest2 → ∃ d, parse p = .ok (.vdict d))
    (hdone : (gdInit env (operation :: rest) parse).framed = some r) :
    (gdInit env (operation :: rest) parse).exit = some 0 := by
  cases rest with
  | nil =>
    unfold gdInit at hdone ⊢
    dsimp only [] at hdone ⊢
    rcases hres : (executeOperation env operation []).res with _ | r2
    · rw [hres] at hdone; exact Option.noConfusion hdone
    · rfl
  | cons p rest2 =>
    obtain ⟨d, hd⟩ := hparse p rest2 rfl
    unfold gdInit at hdone ⊢
    dsimp only [] at hdone ⊢
    rw [hd] at hdone ⊢
    dsimp only [] at hdone ⊢
    rcases hres : (executeOperation env operation d).res with _ | r2
    · rw [hres] at hdone; exact Option.noConfusion hdone
    · rfl

/-- Witness for C7: an invocation whose operation fails (unknown operation
`"bogus"`) still quits with exit code 0. -/
theorem claim_C7_witness :
    (gdInit envNone ["bogus", "payload"] parseOkEmpty).exit = some 0 :=
  claim_C7 envNone "bogus" ["payload"] parseOkEmpty (errDict "Unknown operation: bogus")
    (fun p rest2 h => ⟨[], by cases h; rfl⟩) rfl

/-- Claim C10: `add_node` stores every accepted property value exactly as
received — a tagged record is stored raw, the converter is never applied —
while `modify_node` stores the converted value: on the same single-entry
properties record, the node added by `add_node` carries `(k, v)` itself while
the node modified by `modify_node` carries `(k, w)` with
`convertPropertyValue v = some w`. -/
theorem claim_C10 (env : Env) (sp t k nm : String) (v w : Variant) (root : SceneNode)
    (hload : loadScene env sp = some root)
    (hsp : sp ≠ "")
    (hnode : createNodeOfType env t = some (freshNode t))
    (hexpA : env.exposes t k = true)
    (hexpM : env.exposes root.typeName k = true)
    (hconv : convertPropertyValue v = some w)
    (hsave : env.saveRes sp = 0) :
    (executeOperation env "add_node"
        [("scene_path", .vstr sp), ("node_type", .vstr t), ("node_name", .vstr nm),
         ("properties", .vdict [(k, v)])] =
      ⟨some [("success", .vbool true),
             ("message", .vstr ("Added " ++ t ++ " node '" ++ nm ++ "' to " ++ ".")),
             ("node_path", .vstr nm)],
       withScene env sp (root.withChildren (root.children
         ++ [((freshNode t).withName nm).withProps [(k, v)]])),
       [.loadScene sp, .saveScene sp]⟩)
    ∧ (executeOperation env "modify_node"
        [("scene_path", .vstr sp), ("node_path", .vstr "."),
         ("properties", .vdict [(k, v)])] =
      ⟨some [("success", .vbool true),
             ("message", .vstr ("Modified properties on " ++ ".")),
             ("modified_properties", .vlist [.vstr k])],
       withScene env sp (root.withProps (aset root.props k w)),
       [.loadScene sp, .saveScene sp]⟩) := by
  constructor
  · have edisp : executeOperation env "add_node"
        [("scene_path", .vstr sp), ("node_type", .vstr t), ("node_name", .vstr nm),
         ("properties", .vdict [(k, v)])]
      = addNode env
        [("scene_path", .vstr sp), ("node_type", .vstr t), ("node_name", .vstr nm),
         ("properties", .vdict [(k, v)])] := rfl
    rw [edisp]
    unfold addNode
    rw [show getStr [("scene_path", Variant.vstr sp), ("node_type", .vstr t),
         ("node_name", .vstr nm), ("properties", .vdict [(k, v)])] "scene_path" ""
       = some sp from rfl]
    rw [show getStr [("scene_path", Variant.vstr sp), ("node_type", .vstr t),
         ("node_name", .vstr nm), ("properties", .vdict [(k, v)])] "parent_path" "."
       = some "." from rfl]
    rw [show getStr [("scene_path", Variant.vstr sp), ("node_type", .vstr t),
         ("node_name", .vstr nm), ("properties", .vdict [(k, v)])] "node_type" "Node"
       = some t from rfl]
    rw [show getStr [("scene_path", Variant.vstr sp), ("node_type", .vstr t),
         ("node_name", .vstr nm), ("properties", .vdict [(k, v)])] "node_name" "NewNode"
       = some nm from rfl]
    rw [show getDict [("scene_path", Variant.vstr sp), ("node_type", .vstr t),
         ("node_name", .vstr nm), ("properties", .vdict [(k, v)])] "properties"
       = some [(k, v)] from rfl]
    simp only []
    rw [if_neg hsp, hload]
    simp only []
    rw [show (parsePath ".").bind (resolveLoc root) = some [] from rfl]
    simp only []
    rw [hnode]
    simp only [updateAt]
    simp only [saveSceneTo, hsave]
    simp only [addNodeProps, List.foldl, hexpA, if_true, aset]
    rfl
  · have edisp : executeOperation env "modify_node"
        [("scene_path", .vstr sp), ("node_path", .vstr "."), ("properties", .vdict [(k, v)])]
      = modifyNode env
        [("scene_path", .vstr sp), ("node_path", .vstr "."), ("properties", .vdict [(k, v)])] := rfl
    rw [edisp]
    unfold modifyNode
    rw [show getStr [("scene_path", Variant.vstr sp), ("node_path", .vstr "."),
         ("properties", .vdict [(k, v)])] "scene_path" "" = some sp from rfl]
    simp only []
    rw [if_neg hsp]
    rw [show getStr [("scene_path", Variant.vstr sp), ("node_path", .vstr "."),
         ("properties", .vdict [(k, v)])] "node_path" "" = some "." from rfl]
    simp only []
    rw [if_neg (show ("." : String) ≠ "" by decide)]
    rw [show getDict [("scene_path", Variant.vstr sp), ("node_path", .vstr "."),
         ("properties", .vdict [(k, v)])] "properties" = some [(k, v)] from rfl]
    simp only []
    rw [hload]
    simp only []
    rw [show (parsePath ".").bind (resolveLoc root) = some [] from rfl]
    simp only []
    simp only [convertProps, hconv, Option.map, List.map]
    simp only [updateAt, setProps, List.foldl, hexpM, if_true]
    simp only [saveSceneTo, hsave]
    rfl

/-- Witness for C10: a tagged `Vector2` record is stored raw by `add_node` and
stored as the converted native vector by `modify_node`. -/
theorem claim_C10_witness :
    (executeOperation envAll "add_node"
        [("scene_path", .vstr "res://s.tscn"), ("node_type", .vstr "Node2D"),
         ("node_name", .vstr "N"),
         ("properties", .vdict [("position",
            .vdict [("_type", .vstr "Vector2"), ("x", .vnum 1), ("y", .vnum 2)])])] =
      ⟨some [("success", .vbool true),
             ("message", .vstr ("Added " ++ "Node2D" ++ " node '" ++ "N" ++ "' to " ++ ".")),
             ("node_path", .vstr "N")],
       withScene envAll "res://s.tscn" (demoRoot.withChildren (demoRoot.children
         ++ [((freshNode "Node2D").withName "N").withProps [("position",
              .vdict [("_type", .vstr "Vector2"), ("x", .vnum 1), ("y", .vnum 2)])]])),
       [.loadScene "res://s.tscn", .saveScene "res://s.tscn"]⟩)
    ∧ (executeOperation envAll "modify_node"
        [("scene_path", .vstr "res://s.tscn"), ("node_path", .vstr "."),
         ("properties", .vdict [("position",
            .vdict [("_type", .vstr "Vector2"), ("x", .vnum 1), ("y", .vnum 2)])])] =
      ⟨some [("success", .vbool true),
             ("message", .vstr ("Modified properties on " ++ ".")),
             ("modified_properties", .vlist [.vstr "position"])],
       withScene envAll "res://s.tscn"
         (demoRoot.withProps (aset demoRoot.props "position" (.vVector2 1 2))),
       [.loadScene "res://s.tscn", .saveScene "res://s.tscn"]⟩) :=
  claim_C10 envAll "res://s.tscn" "Node2D" "position" "N"
    (.vdict [("_type", .vstr "Vector2"), ("x", .vnum 1), ("y", .vnum 2)])
    (.vVector2 1 2) demoRoot rfl (by decide) rfl rfl rfl rfl rfl

end GodotMCP
